import Mathlib

/-
  Verification development for the MediBox firmware (src/version2/main.cpp).

  The embedding models the alarm scheduler, UI state machine, debounced
  button input, environment check, remote-config ingestion and the
  servo-angle computation as pure Lean functions over an explicit state.

  Modelling conventions:
  - `unsigned long` millisecond timestamps are natural numbers reduced
    modulo 2^32 exactly where the C code's unsigned arithmetic wraps
    (the expression `millis() - t0` becomes `ulSub now t0`).
  - C `int` fields (alarm hour/minute, menu cursors, timezone offset)
    are `Int`; the two hard 0/1 indices (`currentAlarmIndex`,
    `viewAlarmsSelection`) are `Fin 2`, matching the code which only
    ever assigns 0 or 1 to them.
  - C `float` quantities (temperature, humidity, servo parameters) are
    modelled as rationals; the transcendental factor
    `log((float)ts / (float)tu)` of `adjustServo` is an arbitrary
    rational parameter, since the properties proved below hold for
    every value of that factor.
  - Hardware writes (`digitalWrite(BUZZER_PIN, ...)`, `servo.write`)
    become boolean/numeric fields of the state or results of the
    function modelling the routine.
-/

namespace MediBox

/-- 2^32, the modulus of `unsigned long` arithmetic on the target. -/
def UL_MOD : Nat := 4294967296

/-- Reduce a timestamp to `unsigned long` range. -/
def UL (n : Nat) : Nat := n % UL_MOD

/-- `a - b` as computed on `unsigned long` operands (wrapping subtraction). -/
def ulSub (a b : Nat) : Nat := (UL a + UL_MOD - UL b) % UL_MOD

/-- `#define DEBOUNCE_TIME 200` (src line 36). -/
def DEBOUNCE_TIME : Nat := 200

/-- `#define SNOOZE_DURATION 120000` (src line 39). -/
def SNOOZE_DURATION : Nat := 120000

/-- `enum AppState` (src lines 76-77). -/
inductive AppState where
  | WELCOME
  | SHOW_TIME
  | MAIN_MENU
  | SET_ALARM_HOUR
  | SET_ALARM_MINUTE
  | SET_TIMEZONE
  | VIEW_ALARMS
  | ALARM_TRIGGERED
  | CONFIRM_DELETE
deriving DecidableEq

/-- `struct Alarm` (src lines 55-62). -/
structure Alarm where
  hour : Int
  minute : Int
  active : Bool
  ringing : Bool
  snoozed : Bool
  snoozeStartTime : Nat
deriving DecidableEq

/-- The global mutable state touched by the alarm scheduler and the UI
state machine: the two alarm slots `alarms[2]` (src line 63), the shared
`alarmTriggered` flag (line 66), the cursors (lines 68-69, 79), the
timezone offset (line 50), the current UI page (line 78) and the buzzer
output line. -/
structure SysState where
  alarms0 : Alarm
  alarms1 : Alarm
  alarmTriggered : Bool
  currentState : AppState
  currentAlarmIndex : Fin 2
  viewAlarmsSelection : Fin 2
  menuOption : Int
  timeZoneOffset : Int
  buzzer : Bool
deriving DecidableEq

/-- `alarms[i]` for `i` in `{0, 1}`. -/
def SysState.alarmAt (s : SysState) (i : Fin 2) : Alarm :=
  if i = 0 then s.alarms0 else s.alarms1

/-- The index of the slot other than `i`. -/
def otherIndex (i : Fin 2) : Fin 2 :=
  if i = 0 then 1 else 0

/-- The volatile one-shot button flags and the single shared debounce
timestamp (src lines 90-96). -/
structure BtnFlags where
  btnUpPressed : Bool
  btnLeftPressed : Bool
  btnDownPressed : Bool
  btnRightPressed : Bool
  stopAlarmFlag : Bool
  snoozeAlarmFlag : Bool
  lastInterruptTime : Nat
deriving DecidableEq

/-- `handleUpInterrupt` (src lines 133-138): accept the edge only when
more than `DEBOUNCE_TIME` ms passed since the last accepted edge of any
button, using the shared `lastInterruptTime`. -/
def handleUpInterrupt (f : BtnFlags) (now : Nat) : BtnFlags :=
  if ulSub now f.lastInterruptTime > DEBOUNCE_TIME then
    { f with btnUpPressed := true, lastInterruptTime := UL now }
  else f

/-- `handleLeftInterrupt` (src lines 140-145). -/
def handleLeftInterrupt (f : BtnFlags) (now : Nat) : BtnFlags :=
  if ulSub now f.lastInterruptTime > DEBOUNCE_TIME then
    { f with btnLeftPressed := true, lastInterruptTime := UL now }
  else f

/-- `handleDownInterrupt` (src lines 147-155): on an accepted edge, also
set `snoozeAlarmFlag` when the UI is on the AlarmTriggered page. -/
def handleDownInterrupt (f : BtnFlags) (st : AppState) (now : Nat) : BtnFlags :=
  if ulSub now f.lastInterruptTime > DEBOUNCE_TIME then
    let f1 := { f with btnDownPressed := true }
    let f2 := if st = AppState.ALARM_TRIGGERED then { f1 with snoozeAlarmFlag := true } else f1
    { f2 with lastInterruptTime := UL now }
  else f

/-- `handleRightInterrupt` (src lines 157-165): on an accepted edge, also
set `stopAlarmFlag` when the UI is on the AlarmTriggered page. -/
def handleRightInterrupt (f : BtnFlags) (st : AppState) (now : Nat) : BtnFlags :=
  if ulSub now f.lastInterruptTime > DEBOUNCE_TIME then
    let f1 := { f with btnRightPressed := true }
    let f2 := if st = AppState.ALARM_TRIGGERED then { f1 with stopAlarmFlag := true } else f1
    { f2 with lastInterruptTime := UL now }
  else f

/-- The per-slot body of the `for` loop of `checkAlarms`
(src lines 528-548): snooze expiry with rearm to the current wall-clock,
then the time-match trigger test. Returns the updated slot and whether
this slot transitioned to ringing. -/
def checkAlarmSlot (a : Alarm) (curH curM : Int) (now : Nat) : Alarm × Bool :=
  if a.snoozed then
    if ulSub now a.snoozeStartTime ≥ SNOOZE_DURATION then
      let a1 := { a with snoozed := false, hour := curH, minute := curM }
      if a1.active && !a1.ringing && (a1.hour == curH) && (a1.minute == curM) then
        ({ a1 with ringing := true }, true)
      else
        (a1, false)
    else
      (a, false)
  else
    if a.active && !a.ringing && (a.hour == curH) && (a.minute == curM) then
      ({ a with ringing := true }, true)
    else
      (a, false)

/-- `checkAlarms` (src lines 521-549): a no-op while `alarmTriggered` is
set; otherwise both slots are processed in order, and a trigger on
either slot sets the global flag and switches the UI to AlarmTriggered. -/
def checkAlarms (s : SysState) (curH curM : Int) (now : Nat) : SysState :=
  if s.alarmTriggered then s
  else
    let r0 := checkAlarmSlot s.alarms0 curH curM now
    let r1 := checkAlarmSlot s.alarms1 curH curM now
    { s with
        alarms0 := r0.1
        alarms1 := r1.1
        alarmTriggered := r0.2 || r1.2
        currentState := if r0.2 || r1.2 then AppState.ALARM_TRIGGERED else s.currentState }

/-- `stopAlarm` (src lines 604-615): buzzer off, global flag cleared,
ringing and snoozed cleared on both slots, UI back to ShowTime. -/
def stopAlarm (s : SysState) : SysState :=
  { s with
      buzzer := false
      alarmTriggered := false
      alarms0 := { s.alarms0 with ringing := false, snoozed := false }
      alarms1 := { s.alarms1 with ringing := false, snoozed := false }
      currentState := AppState.SHOW_TIME }

/-- `snoozeAlarm` (src lines 617-627): buzzer off, global flag cleared,
and only `alarms[currentAlarmIndex]` has ringing cleared, snoozed set and
the snooze start stamped with the current `millis()`. -/
def snoozeAlarm (s : SysState) (now : Nat) : SysState :=
  let upd : Alarm → Alarm := fun a =>
    { a with ringing := false, snoozed := true, snoozeStartTime := UL now }
  { s with
      buzzer := false
      alarmTriggered := false
      alarms0 := if s.currentAlarmIndex = 0 then upd s.alarms0 else s.alarms0
      alarms1 := if s.currentAlarmIndex = 1 then upd s.alarms1 else s.alarms1
      currentState := AppState.SHOW_TIME }

/-- The immediate-alarm-action block of `loop` (src lines 303-311):
consume `stopAlarmFlag` then `snoozeAlarmFlag`, running `stopAlarm` and
`snoozeAlarm` respectively. -/
def processAlarmFlags (s : SysState) (f : BtnFlags) (now : Nat) : SysState × BtnFlags :=
  let p := if f.stopAlarmFlag then (stopAlarm s, { f with stopAlarmFlag := false }) else (s, f)
  if p.2.snoozeAlarmFlag then
    (snoozeAlarm p.1 now, { p.2 with snoozeAlarmFlag := false })
  else p

/-- `handleRightButton` (src lines 661-711). -/
def handleRightButton (s : SysState) : SysState :=
  match s.currentState with
  | AppState.WELCOME => { s with currentState := AppState.SHOW_TIME }
  | AppState.SHOW_TIME => { s with currentState := AppState.MAIN_MENU, menuOption := 0 }
  | AppState.MAIN_MENU =>
      if s.menuOption = 0 then
        { s with currentAlarmIndex := 0, currentState := AppState.SET_ALARM_HOUR }
      else if s.menuOption = 1 then
        { s with currentAlarmIndex := 1, currentState := AppState.SET_ALARM_HOUR }
      else if s.menuOption = 2 then
        { s with currentState := AppState.SET_TIMEZONE }
      else if s.menuOption = 3 then
        { s with viewAlarmsSelection := 0, currentState := AppState.VIEW_ALARMS }
      else s
  | AppState.SET_ALARM_HOUR => { s with currentState := AppState.SET_ALARM_MINUTE }
  | AppState.SET_ALARM_MINUTE =>
      let s1 :=
        { s with
            alarms0 := if s.currentAlarmIndex = 0 then { s.alarms0 with active := true } else s.alarms0
            alarms1 := if s.currentAlarmIndex = 1 then { s.alarms1 with active := true } else s.alarms1 }
      { s1 with currentState := AppState.MAIN_MENU }
  | AppState.SET_TIMEZONE => { s with currentState := AppState.MAIN_MENU }
  | AppState.VIEW_ALARMS =>
      if (s.alarmAt s.viewAlarmsSelection).active then
        { s with currentState := AppState.CONFIRM_DELETE }
      else s
  | AppState.CONFIRM_DELETE =>
      let del : Alarm → Alarm := fun a => { a with active := false, ringing := false, snoozed := false }
      { s with
          alarms0 := if s.viewAlarmsSelection = 0 then del s.alarms0 else s.alarms0
          alarms1 := if s.viewAlarmsSelection = 1 then del s.alarms1 else s.alarms1
          currentState := AppState.VIEW_ALARMS }
  | AppState.ALARM_TRIGGERED => stopAlarm s

/-- `handleLeftButton` (src lines 713-721). -/
def handleLeftButton (s : SysState) : SysState :=
  if s.currentState = AppState.SHOW_TIME then
    { s with currentState := AppState.WELCOME }
  else if s.currentState = AppState.MAIN_MENU ∨ s.currentState = AppState.VIEW_ALARMS ∨
          s.currentState = AppState.CONFIRM_DELETE then
    { s with currentState := AppState.SHOW_TIME }
  else if s.currentState = AppState.SET_ALARM_HOUR ∨ s.currentState = AppState.SET_ALARM_MINUTE ∨
          s.currentState = AppState.SET_TIMEZONE then
    { s with currentState := AppState.MAIN_MENU }
  else s

/-- `handleUpButton` (src lines 723-749); the `switch` has no case for
WELCOME, SHOW_TIME or ALARM_TRIGGERED, so those pages are untouched. -/
def handleUpButton (s : SysState) : SysState :=
  match s.currentState with
  | AppState.SET_ALARM_HOUR =>
      let upd : Alarm → Alarm := fun a => { a with hour := (a.hour + 1) % 24 }
      { s with
          alarms0 := if s.currentAlarmIndex = 0 then upd s.alarms0 else s.alarms0
          alarms1 := if s.currentAlarmIndex = 1 then upd s.alarms1 else s.alarms1 }
  | AppState.SET_ALARM_MINUTE =>
      let upd : Alarm → Alarm := fun a => { a with minute := (a.minute + 1) % 60 }
      { s with
          alarms0 := if s.currentAlarmIndex = 0 then upd s.alarms0 else s.alarms0
          alarms1 := if s.currentAlarmIndex = 1 then upd s.alarms1 else s.alarms1 }
  | AppState.SET_TIMEZONE =>
      let tz := s.timeZoneOffset + 1800
      { s with timeZoneOffset := if tz > 86400 then tz - 86400 else tz }
  | AppState.MAIN_MENU => { s with menuOption := (s.menuOption - 1 + 4) % 4 }
  | AppState.VIEW_ALARMS => { s with viewAlarmsSelection := otherIndex s.viewAlarmsSelection }
  | AppState.CONFIRM_DELETE =>
      let del : Alarm → Alarm := fun a => { a with active := false, ringing := false, snoozed := false }
      { s with
          alarms0 := if s.viewAlarmsSelection = 0 then del s.alarms0 else s.alarms0
          alarms1 := if s.viewAlarmsSelection = 1 then del s.alarms1 else s.alarms1
          currentState := AppState.VIEW_ALARMS }
  | _ => s

/-- `handleDownButton` (src lines 751-774); the `switch` has no case for
WELCOME, SHOW_TIME or ALARM_TRIGGERED, so those pages are untouched. -/
def handleDownButton (s : SysState) : SysState :=
  match s.currentState with
  | AppState.SET_ALARM_HOUR =>
      let upd : Alarm → Alarm := fun a => { a with hour := (a.hour - 1 + 24) % 24 }
      { s with
          alarms0 := if s.currentAlarmIndex = 0 then upd s.alarms0 else s.alarms0
          alarms1 := if s.currentAlarmIndex = 1 then upd s.alarms1 else s.alarms1 }
  | AppState.SET_ALARM_MINUTE =>
      let upd : Alarm → Alarm := fun a => { a with minute := (a.minute - 1 + 60) % 60 }
      { s with
          alarms0 := if s.currentAlarmIndex = 0 then upd s.alarms0 else s.alarms0
          alarms1 := if s.currentAlarmIndex = 1 then upd s.alarms1 else s.alarms1 }
  | AppState.SET_TIMEZONE =>
      let tz := s.timeZoneOffset - 1800
      { s with timeZoneOffset := if tz < -86400 then tz + 86400 else tz }
  | AppState.MAIN_MENU => { s with menuOption := (s.menuOption + 1) % 4 }
  | AppState.VIEW_ALARMS => { s with viewAlarmsSelection := otherIndex s.viewAlarmsSelection }
  | AppState.CONFIRM_DELETE => { s with currentState := AppState.VIEW_ALARMS }
  | _ => s

/-- The body of `checkEnvironment` once the 2000ms interval has elapsed
(src lines 437-454): compute the warning classification from the fresh
samples and drive the buzzer. Returns `(envWarning, buzzerOutput)`. -/
def checkEnvironment (temperature humidity : ℚ) (alarmTriggered : Bool) : Bool × Bool :=
  let envWarning : Bool :=
    decide (temperature < 24) || decide (temperature > 32) ||
    decide (humidity < 65) || decide (humidity > 80)
  (envWarning, if envWarning && !alarmTriggered then true else false)

/-- Topic string `medicine_storage/config/sampling_interval` (src line 171). -/
def sampling_interval_topic : String := "medicine_storage/config/sampling_interval"

/-- Topic string `medicine_storage/config/sending_interval` (src line 172). -/
def sending_interval_topic : String := "medicine_storage/config/sending_interval"

/-- Topic string `medicine_storage/config/AmpTemp` (src line 173). -/
def amp_temp_topic : String := "medicine_storage/config/AmpTemp"

/-- Topic string `medicine_storage/config/ControlFactor` (src line 174). -/
def control_factor_topic : String := "medicine_storage/config/ControlFactor"

/-- Topic string `medicine_storage/config/minAngle` (src line 175). -/
def min_angle_topic : String := "medicine_storage/config/minAngle"

/-- The remote-tunable globals of the sketch: the servo-formula
parameters `ts`, `tu`, `theta_offset`, `controlFactor`, `T_med`
(src lines 196-200) together with the light measurement cadence
variables `samplingInterval` and `sendingInterval` (src lines 178-179),
which are distinct globals from `ts`/`tu`. -/
structure Tunables where
  ts : Int
  tu : Int
  theta_offset : ℚ
  controlFactor : ℚ
  T_med : ℚ
  samplingInterval : Nat
  sendingInterval : Nat
deriving DecidableEq

/-- The power-on defaults of the tunables (src lines 178-179, 196-200). -/
def defaultTunables : Tunables :=
  { ts := 5000
    tu := 120000
    theta_offset := 30
    controlFactor := 3 / 4
    T_med := 30
    samplingInterval := 5000
    sendingInterval := 120000 }

/-- `recieveCallback` (src lines 342-356). The payload string enters
only through `atoi`/`atof`, so it is modelled by its parsed values
`atoiVal` (the C `atoi(message)`) and `atofVal` (the C `atof(message)`). -/
def recieveCallback (g : Tunables) (topic : String) (atoiVal : Int) (atofVal : ℚ) : Tunables :=
  if topic = sampling_interval_topic then { g with ts := atoiVal * 1000 }
  else if topic = sending_interval_topic then { g with tu := atoiVal * 60000 }
  else if topic = min_angle_topic then { g with theta_offset := atofVal }
  else if topic = control_factor_topic then { g with controlFactor := atofVal }
  else if topic = amp_temp_topic then { g with T_med := atofVal }
  else g

/-- The light-sampling guard of `loop` (src line 261):
`currentTime - lastSampleTime >= samplingInterval`. -/
def lightSampleDue (currentTime lastSampleTime samplingInterval : Nat) : Bool :=
  decide (ulSub currentTime lastSampleTime ≥ samplingInterval)

/-- Arduino `constrain(amt, low, high)`:
`(amt < low) ? low : ((amt > high) ? high : amt)`. -/
def constrain (amt low high : ℚ) : ℚ :=
  if amt < low then low else if amt > high then high else amt

/-- The servo-angle computation of `adjustServo` (src lines 366-373):
`theta = theta_offset + (180 - theta_offset) * L * controlFactor
          * log(ts/tu) * (temperature / T_med)` clamped to
`[theta_offset, 180]`. The float `log((float)ts / (float)tu)` is
modelled by the arbitrary rational `logTerm`. -/
def adjustServoTheta (theta_offset T_med cf normalizedLight temperature logTerm : ℚ) : ℚ :=
  constrain
    (theta_offset +
      (180 - theta_offset) * normalizedLight * cf * logTerm * (temperature / T_med))
    theta_offset 180

/-- A slot is armed for the current minute: active, not ringing, not
snoozed, and matching the wall-clock hour and minute. -/
def slotMatches (a : Alarm) (curH curM : Int) : Prop :=
  a.active = true ∧ a.ringing = false ∧ a.snoozed = false ∧ a.hour = curH ∧ a.minute = curM

/-- The per-slot invariant: `ringing` and `snoozed` never both true. -/
def alarmInv (a : Alarm) : Prop :=
  (a.ringing && a.snoozed) = false

/-- The invariant on both slots of the system state. -/
def sysInv (s : SysState) : Prop :=
  alarmInv s.alarms0 ∧ alarmInv s.alarms1

/-- A slot armed for 07:30, neither ringing nor snoozed. -/
def matchSlot : Alarm :=
  { hour := 7, minute := 30, active := true, ringing := false, snoozed := false
    snoozeStartTime := 0 }

/-- Both slots armed for 07:30, no alarm episode active. -/
def bothMatchState : SysState :=
  { alarms0 := matchSlot
    alarms1 := matchSlot
    alarmTriggered := false
    currentState := AppState.SHOW_TIME
    currentAlarmIndex := 0
    viewAlarmsSelection := 0
    menuOption := 0
    timeZoneOffset := 19800
    buzzer := false }

/-- Slot 0 ringing and the UI on the AlarmTriggered page. -/
def triggeredState : SysState :=
  { bothMatchState with
      alarms0 := { matchSlot with ringing := true }
      alarmTriggered := true
      currentState := AppState.ALARM_TRIGGERED }

/-- The UI on the ConfirmDelete page. -/
def confirmDeleteState : SysState :=
  { bothMatchState with currentState := AppState.CONFIRM_DELETE }

/-- Slot 0 snoozed since millisecond 1000, no alarm episode active. -/
def snoozedState : SysState :=
  { bothMatchState with
      alarms0 := { matchSlot with snoozed := true, snoozeStartTime := 1000 } }

/-- All button flags clear, the shared debounce timestamp at 0. -/
def idleFlags : BtnFlags :=
  { btnUpPressed := false, btnLeftPressed := false, btnDownPressed := false
    btnRightPressed := false, stopAlarmFlag := false, snoozeAlarmFlag := false
    lastInterruptTime := 0 }

/-- Only the one-shot snooze flag pending. -/
def snoozePendingFlags : BtnFlags :=
  { idleFlags with snoozeAlarmFlag := true }

/-- The slot invariant is preserved by one pass of the `checkAlarms`
loop body over a slot. -/
theorem checkAlarmSlot_inv (a : Alarm) (curH curM : Int) (now : Nat)
    (h : alarmInv a) :
    alarmInv (checkAlarmSlot a curH curM now).1 := by
  rcases a with ⟨hh, mm, act, rg, sn, st⟩
  unfold checkAlarmSlot alarmInv at *
  cases sn <;> cases rg <;> cases act <;> simp_all <;> split_ifs <;> simp_all

/-- Snooze expiry in the `checkAlarms` loop body clears `snoozed` and
rewrites the slot's alarm time to the current wall-clock. -/
theorem checkAlarmSlot_expiry (a : Alarm) (curH curM : Int) (now : Nat)
    (hs : a.snoozed = true) (he : ulSub now a.snoozeStartTime ≥ SNOOZE_DURATION) :
    (checkAlarmSlot a curH curM now).1.snoozed = false ∧
    (checkAlarmSlot a curH curM now).1.hour = curH ∧
    (checkAlarmSlot a curH curM now).1.minute = curM := by
  unfold checkAlarmSlot
  simp only [hs, if_true, he, if_pos]
  split_ifs <;> simp

/-- Claim C6: `stopAlarm` clears ringing and snoozed on both alarm
slots, clears the global `alarmTriggered` flag and moves the UI to
ShowTime, leaving each slot's hour, minute and active fields unchanged,
in every state and regardless of which slot is ringing. -/
theorem stopAlarm_clears_everything (s : SysState) :
    (stopAlarm s).alarms0.ringing = false ∧
    (stopAlarm s).alarms0.snoozed = false ∧
    (stopAlarm s).alarms1.ringing = false ∧
    (stopAlarm s).alarms1.snoozed = false ∧
    (stopAlarm s).alarmTriggered = false ∧
    (stopAlarm s).currentState = AppState.SHOW_TIME ∧
    (stopAlarm s).alarms0.hour = s.alarms0.hour ∧
    (stopAlarm s).alarms0.minute = s.alarms0.minute ∧
    (stopAlarm s).alarms0.active = s.alarms0.active ∧
    (stopAlarm s).alarms1.hour = s.alarms1.hour ∧
    (stopAlarm s).alarms1.minute = s.alarms1.minute ∧
    (stopAlarm s).alarms1.active = s.alarms1.active := by
  simp [stopAlarm]

/-- Claim C8: the environment check computes
`warning = (t < 24 or t > 32 or h < 65 or h > 80)` from the fresh
samples, and asserts the buzzer output iff the warning holds and no
alarm is ringing. -/
theorem checkEnvironment_warning_buzzer (t h : ℚ) (trig : Bool) :
    ((checkEnvironment t h trig).1 = true ↔ (t < 24 ∨ t > 32 ∨ h < 65 ∨ h > 80)) ∧
    ((checkEnvironment t h trig).2 = true ↔
      ((checkEnvironment t h trig).1 = true ∧ trig = false)) := by
  constructor
  · simp [checkEnvironment, or_assoc]
  · simp only [checkEnvironment]
    split_ifs with hcond <;> simp_all

/-- Claim C10: on the ConfirmDelete page a Left press goes directly to
ShowTime (not back to ViewAlarms) and leaves both alarm slots entirely
unchanged. -/
theorem confirmDelete_left_cancels (s : SysState)
    (h : s.currentState = AppState.CONFIRM_DELETE) :
    (handleLeftButton s).currentState = AppState.SHOW_TIME ∧
    (handleLeftButton s).currentState ≠ AppState.VIEW_ALARMS ∧
    (handleLeftButton s).alarms0 = s.alarms0 ∧
    (handleLeftButton s).alarms1 = s.alarms1 := by
  simp [handleLeftButton, h]

/-- Witness for C10 at a concrete ConfirmDelete state. -/
theorem confirmDelete_left_cancels_witness :
    (handleLeftButton confirmDeleteState).currentState = AppState.SHOW_TIME ∧
    (handleLeftButton confirmDeleteState).currentState ≠ AppState.VIEW_ALARMS ∧
    (handleLeftButton confirmDeleteState).alarms0 = confirmDeleteState.alarms0 ∧
    (handleLeftButton confirmDeleteState).alarms1 = confirmDeleteState.alarms1 :=
  confirmDelete_left_cancels confirmDeleteState rfl

/-- Counterexample to C3 as stated: the payload 10 on the
sampling-interval channel sets the servo-formula variable `ts` to
10000, but the cadence variable `samplingInterval` that governs when a
light sample is taken stays 5000, so a sample is still due 5000 ms
after the previous one. -/
theorem sampling_config_counterexample :
    (recieveCallback defaultTunables sampling_interval_topic 10 10).ts = 10000 ∧
    (recieveCallback defaultTunables sampling_interval_topic 10 10).samplingInterval = 5000 ∧
    (recieveCallback defaultTunables sampling_interval_topic 10 10).samplingInterval ≠ 10000 ∧
    lightSampleDue 5000 0
      (recieveCallback defaultTunables sampling_interval_topic 10 10).samplingInterval = true := by
  decide

/-- Claim C3 (amended): a numeric payload v on the sampling-interval
channel sets the servo-formula parameter `ts` to v * 1000 and does not
modify the light-sampling cadence variables. -/
theorem sampling_config_sets_ts_only (g : Tunables) (v : Int) (vf : ℚ) :
    (recieveCallback g sampling_interval_topic v vf).ts = v * 1000 ∧
    (recieveCallback g sampling_interval_topic v vf).samplingInterval = g.samplingInterval ∧
    (recieveCallback g sampling_interval_topic v vf).sendingInterval = g.sendingInterval := by
  simp [recieveCallback]

/-- Counterexample to C4 as stated: an edge arriving exactly 200 ms
after the last accepted edge is dropped (the code tests strictly
`> DEBOUNCE_TIME`), although the claim says edges at least 200 ms apart
are accepted. -/
theorem debounce_boundary_edge_dropped :
    ulSub 200 idleFlags.lastInterruptTime = 200 ∧
    DEBOUNCE_TIME = 200 ∧
    handleUpInterrupt idleFlags 200 = idleFlags ∧
    (handleUpInterrupt idleFlags 200).btnUpPressed = false := by
  decide

/-- Claim C4 (amended): with the single shared debounce timestamp, an
edge of any button arriving at most 200 ms after the last accepted edge
of any button is dropped with no state change, and an edge arriving
strictly more than 200 ms after it is accepted: its one-shot pending
flag is set and the shared timestamp is updated. -/
theorem debounce_shared_window (f : BtnFlags) (st : AppState) (now1 now2 : Nat)
    (hdrop : ulSub now1 f.lastInterruptTime ≤ DEBOUNCE_TIME)
    (hacc : ulSub now2 f.lastInterruptTime > DEBOUNCE_TIME) :
    handleUpInterrupt f now1 = f ∧
    handleLeftInterrupt f now1 = f ∧
    handleDownInterrupt f st now1 = f ∧
    handleRightInterrupt f st now1 = f ∧
    ((handleUpInterrupt f now2).btnUpPressed = true ∧
      (handleUpInterrupt f now2).lastInterruptTime = UL now2) ∧
    ((handleLeftInterrupt f now2).btnLeftPressed = true ∧
      (handleLeftInterrupt f now2).lastInterruptTime = UL now2) ∧
    ((handleDownInterrupt f st now2).btnDownPressed = true ∧
      (handleDownInterrupt f st now2).lastInterruptTime = UL now2) ∧
    ((handleRightInterrupt f st now2).btnRightPressed = true ∧
      (handleRightInterrupt f st now2).lastInterruptTime = UL now2) := by
  have h1 : ¬ ulSub now1 f.lastInterruptTime > DEBOUNCE_TIME := not_lt.mpr hdrop
  refine ⟨?_, ?_, ?_, ?_, ?_, ?_, ?_, ?_⟩ <;>
    simp only [handleUpInterrupt, handleLeftInterrupt, handleDownInterrupt,
      handleRightInterrupt] <;>
    (try split_ifs) <;> simp_all

/-- Witness for the amended C4 at concrete times 100 ms (dropped) and
500 ms (accepted) after an accepted edge at time 0. -/
theorem debounce_shared_window_witness :
    handleUpInterrupt idleFlags 100 = idleFlags ∧
    handleLeftInterrupt idleFlags 100 = idleFlags ∧
    handleDownInterrupt idleFlags AppState.SHOW_TIME 100 = idleFlags ∧
    handleRightInterrupt idleFlags AppState.SHOW_TIME 100 = idleFlags ∧
    ((handleUpInterrupt idleFlags 500).btnUpPressed = true ∧
      (handleUpInterrupt idleFlags 500).lastInterruptTime = UL 500) ∧
    ((handleLeftInterrupt idleFlags 500).btnLeftPressed = true ∧
      (handleLeftInterrupt idleFlags 500).lastInterruptTime = UL 500) ∧
    ((handleDownInterrupt idleFlags AppState.SHOW_TIME 500).btnDownPressed = true ∧
      (handleDownInterrupt idleFlags AppState.SHOW_TIME 500).lastInterruptTime = UL 500) ∧
    ((handleRightInterrupt idleFlags AppState.SHOW_TIME 500).btnRightPressed = true ∧
      (handleRightInterrupt idleFlags AppState.SHOW_TIME 500).lastInterruptTime = UL 500) :=
  debounce_shared_window idleFlags AppState.SHOW_TIME 100 500 (by decide) (by decide)

/-- Counterexample to C1 as stated: with both slots active, non-snoozed
and matching 07:30 while no alarm rings, one evaluation of
`checkAlarms` sets the ringing flag on BOTH slots, not on exactly one:
the loop body never re-tests the global flag within the same call. -/
theorem checkAlarms_not_exactly_one :
    (checkAlarms bothMatchState 7 30 1000).alarms0.ringing = true ∧
    (checkAlarms bothMatchState 7 30 1000).alarms1.ringing = true ∧
    (checkAlarms bothMatchState 7 30 1000).alarmTriggered = true ∧
    ¬ (((checkAlarms bothMatchState 7 30 1000).alarms0.ringing = true ∧
        (checkAlarms bothMatchState 7 30 1000).alarms1.ringing = false) ∨
       ((checkAlarms bothMatchState 7 30 1000).alarms0.ringing = false ∧
        (checkAlarms bothMatchState 7 30 1000).alarms1.ringing = true)) := by
  decide

/-- Claim C1 (amended): when no alarm is ringing and both slots are
active, non-snoozed and match the wall-clock minute, one evaluation of
`checkAlarms` transitions BOTH matching slots to Ringing, sets the
global `alarmTriggered` flag and switches the UI to AlarmTriggered;
once the flag is set, every further evaluation of the scheduler is a
no-op, so no new trigger occurs while the episode is active. -/
theorem checkAlarms_triggers_both_matching (s : SysState) (curH curM : Int) (now : Nat)
    (hf : s.alarmTriggered = false)
    (h0 : slotMatches s.alarms0 curH curM)
    (h1 : slotMatches s.alarms1 curH curM) :
    (checkAlarms s curH curM now).alarms0.ringing = true ∧
    (checkAlarms s curH curM now).alarms1.ringing = true ∧
    (checkAlarms s curH curM now).alarmTriggered = true ∧
    (checkAlarms s curH curM now).currentState = AppState.ALARM_TRIGGERED ∧
    (∀ h2 m2 : Int, ∀ n2 : Nat,
      checkAlarms (checkAlarms s curH curM now) h2 m2 n2 = checkAlarms s curH curM now) := by
  obtain ⟨ha0, hr0, hs0, hh0, hm0⟩ := h0
  obtain ⟨ha1, hr1, hs1, hh1, hm1⟩ := h1
  have e0 : checkAlarmSlot s.alarms0 curH curM now = ({ s.alarms0 with ringing := true }, true) := by
    simp [checkAlarmSlot, hs0, ha0, hr0, hh0, hm0]
  have e1 : checkAlarmSlot s.alarms1 curH curM now = ({ s.alarms1 with ringing := true }, true) := by
    simp [checkAlarmSlot, hs1, ha1, hr1, hh1, hm1]
  have hres : (checkAlarms s curH curM now).alarmTriggered = true := by
    simp [checkAlarms, hf, e0, e1]
  refine ⟨?_, ?_, hres, ?_, ?_⟩
  · simp [checkAlarms, hf, e0, e1]
  · simp [checkAlarms, hf, e0, e1]
  · simp [checkAlarms, hf, e0, e1]
  · intro h2 m2 n2
    rw [checkAlarms, if_pos hres]

/-- Witness for the amended C1: both slots armed for 07:30 at 07:30;
both ring after one evaluation, and a later evaluation (at 08:15)
changes nothing. -/
theorem checkAlarms_triggers_both_matching_witness :
    (checkAlarms bothMatchState 7 30 1000).alarms0.ringing = true ∧
    (checkAlarms bothMatchState 7 30 1000).alarms1.ringing = true ∧
    (checkAlarms bothMatchState 7 30 1000).alarmTriggered = true ∧
    (checkAlarms bothMatchState 7 30 1000).currentState = AppState.ALARM_TRIGGERED ∧
    checkAlarms (checkAlarms bothMatchState 7 30 1000) 8 15 2000 =
      checkAlarms bothMatchState 7 30 1000 := by
  have h := checkAlarms_triggers_both_matching bothMatchState 7 30 1000 rfl
    ⟨rfl, rfl, rfl, rfl, rfl⟩ ⟨rfl, rfl, rfl, rfl, rfl⟩
  exact ⟨h.1, h.2.1, h.2.2.1, h.2.2.2.1, h.2.2.2.2 8 15 2000⟩

/-- Claim C2: on the AlarmTriggered page, Right triggers `stopAlarm`
(UI to ShowTime) and the Right edge also arms the one-shot stop flag;
Down is a no-op at the dispatch level, its edge arms the one-shot
snooze flag, whose consumption runs `snoozeAlarm` (UI to ShowTime);
Up and Left presses are no-ops on this page. -/
theorem alarmTriggered_page_inputs
    (s : SysState) (f g : BtnFlags) (now : Nat)
    (hs : s.currentState = AppState.ALARM_TRIGGERED)
    (hacc : ulSub now f.lastInterruptTime > DEBOUNCE_TIME)
    (hg1 : g.stopAlarmFlag = false)
    (hg2 : g.snoozeAlarmFlag = true) :
    handleRightButton s = stopAlarm s ∧
    (stopAlarm s).currentState = AppState.SHOW_TIME ∧
    (handleRightInterrupt f s.currentState now).stopAlarmFlag = true ∧
    handleDownButton s = s ∧
    (handleDownInterrupt f s.currentState now).snoozeAlarmFlag = true ∧
    (processAlarmFlags s g now).1 = snoozeAlarm s now ∧
    (snoozeAlarm s now).currentState = AppState.SHOW_TIME ∧
    handleUpButton s = s ∧
    handleLeftButton s = s := by
  refine ⟨?_, rfl, ?_, ?_, ?_, ?_, rfl, ?_, ?_⟩
  · simp [handleRightButton, hs]
  · simp [handleRightInterrupt, hs, hacc]
  · simp [handleDownButton, hs]
  · simp [handleDownInterrupt, hs, hacc]
  · simp [processAlarmFlags, hg1, hg2]
  · simp [handleUpButton, hs]
  · simp [handleLeftButton, hs]

/-- Witness for C2 at a concrete AlarmTriggered state. -/
theorem alarmTriggered_page_inputs_witness :
    handleRightButton triggeredState = stopAlarm triggeredState ∧
    (stopAlarm triggeredState).currentState = AppState.SHOW_TIME ∧
    (handleRightInterrupt idleFlags triggeredState.currentState 1000).stopAlarmFlag = true ∧
    handleDownButton triggeredState = triggeredState ∧
    (handleDownInterrupt idleFlags triggeredState.currentState 1000).snoozeAlarmFlag = true ∧
    (processAlarmFlags triggeredState snoozePendingFlags 1000).1 =
      snoozeAlarm triggeredState 1000 ∧
    (snoozeAlarm triggeredState 1000).currentState = AppState.SHOW_TIME ∧
    handleUpButton triggeredState = triggeredState ∧
    handleLeftButton triggeredState = triggeredState :=
  alarmTriggered_page_inputs triggeredState idleFlags snoozePendingFlags 1000
    rfl (by decide) rfl rfl

/-- Claim C5: `snoozeAlarm` clears the global flag, clears ringing and
sets snoozed with the snooze timestamp on the currently indexed slot
only, leaving the other slot untouched, and moves the UI to ShowTime;
and when `checkAlarms` later evaluates a snoozed slot after exactly
120000 ms have elapsed since the snooze timestamp, the slot's snoozed
flag clears and its hour and minute are rewritten to the wall-clock
values at the moment of expiry. -/
theorem snooze_marks_slot_and_expiry_rearms
    (s s2 : SysState) (now now2 : Nat) (curH curM : Int) (i : Fin 2)
    (h2f : s2.alarmTriggered = false)
    (h2s : (s2.alarmAt i).snoozed = true)
    (h2e : ulSub now2 (s2.alarmAt i).snoozeStartTime = SNOOZE_DURATION) :
    (snoozeAlarm s now).alarmTriggered = false ∧
    ((snoozeAlarm s now).alarmAt s.currentAlarmIndex).ringing = false ∧
    ((snoozeAlarm s now).alarmAt s.currentAlarmIndex).snoozed = true ∧
    ((snoozeAlarm s now).alarmAt s.currentAlarmIndex).snoozeStartTime = UL now ∧
    (snoozeAlarm s now).alarmAt (otherIndex s.currentAlarmIndex) =
      s.alarmAt (otherIndex s.currentAlarmIndex) ∧
    (snoozeAlarm s now).currentState = AppState.SHOW_TIME ∧
    ((checkAlarms s2 curH curM now2).alarmAt i).snoozed = false ∧
    ((checkAlarms s2 curH curM now2).alarmAt i).hour = curH ∧
    ((checkAlarms s2 curH curM now2).alarmAt i).minute = curM := by
  have he : ulSub now2 (s2.alarmAt i).snoozeStartTime ≥ SNOOZE_DURATION := le_of_eq h2e.symm
  have hexp := checkAlarmSlot_expiry (s2.alarmAt i) curH curM now2 h2s he
  have hproj : (checkAlarms s2 curH curM now2).alarmAt i =
      (checkAlarmSlot (s2.alarmAt i) curH curM now2).1 := by
    rcases Fin.exists_fin_two.mp ⟨i, rfl⟩ with hi | hi <;>
      subst hi <;> simp [checkAlarms, h2f, SysState.alarmAt]
  refine ⟨rfl, ?_, ?_, ?_, ?_, rfl, ?_, ?_, ?_⟩
  · rcases Fin.exists_fin_two.mp ⟨s.currentAlarmIndex, rfl⟩ with hi | hi <;>
      rw [hi] <;> simp [snoozeAlarm, SysState.alarmAt, hi]
  · rcases Fin.exists_fin_two.mp ⟨s.currentAlarmIndex, rfl⟩ with hi | hi <;>
      rw [hi] <;> simp [snoozeAlarm, SysState.alarmAt, hi]
  · rcases Fin.exists_fin_two.mp ⟨s.currentAlarmIndex, rfl⟩ with hi | hi <;>
      rw [hi] <;> simp [snoozeAlarm, SysState.alarmAt, hi]
  · rcases Fin.exists_fin_two.mp ⟨s.currentAlarmIndex, rfl⟩ with hi | hi <;>
      rw [hi] <;> simp [snoozeAlarm, SysState.alarmAt, otherIndex, hi]
  · rw [hproj]; exact hexp.1
  · rw [hproj]; exact hexp.2.1
  · rw [hproj]; exact hexp.2.2

/-- Witness for C5: snoozing with slot 0 indexed, and expiry of a slot
snoozed at millisecond 1000, evaluated at millisecond 121000 (exactly
120000 ms later) with wall-clock 07:32. -/
theorem snooze_marks_slot_and_expiry_rearms_witness :
    (snoozeAlarm triggeredState 5000).alarmTriggered = false ∧
    ((snoozeAlarm triggeredState 5000).alarmAt triggeredState.currentAlarmIndex).ringing = false ∧
    ((snoozeAlarm triggeredState 5000).alarmAt triggeredState.currentAlarmIndex).snoozed = true ∧
    ((snoozeAlarm triggeredState 5000).alarmAt triggeredState.currentAlarmIndex).snoozeStartTime =
      UL 5000 ∧
    (snoozeAlarm triggeredState 5000).alarmAt (otherIndex triggeredState.currentAlarmIndex) =
      triggeredState.alarmAt (otherIndex triggeredState.currentAlarmIndex) ∧
    (snoozeAlarm triggeredState 5000).currentState = AppState.SHOW_TIME ∧
    ((checkAlarms snoozedState 7 32 121000).alarmAt 0).snoozed = false ∧
    ((checkAlarms snoozedState 7 32 121000).alarmAt 0).hour = 7 ∧
    ((checkAlarms snoozedState 7 32 121000).alarmAt 0).minute = 32 :=
  snooze_marks_slot_and_expiry_rearms triggeredState snoozedState 5000 121000 7 32 0
    rfl (by decide) (by decide)

/-- Claim C9: every operation that mutates an alarm slot preserves the
invariant that ringing and snoozed are never both true, on both slots. -/
theorem ringing_snoozed_never_both (s : SysState) (curH curM : Int) (now : Nat)
    (h : sysInv s) :
    sysInv (checkAlarms s curH curM now) ∧
    sysInv (snoozeAlarm s now) ∧
    sysInv (stopAlarm s) ∧
    sysInv (handleRightButton s) ∧
    sysInv (handleLeftButton s) ∧
    sysInv (handleUpButton s) ∧
    sysInv (handleDownButton s) := by
  obtain ⟨h0, h1⟩ := h
  refine ⟨?_, ?_, ?_, ?_, ?_, ?_, ?_⟩
  · simp only [checkAlarms]
    split
    · exact ⟨h0, h1⟩
    · exact ⟨checkAlarmSlot_inv _ _ _ _ h0, checkAlarmSlot_inv _ _ _ _ h1⟩
  · unfold sysInv snoozeAlarm
    constructor <;> split_ifs <;> simp_all [alarmInv]
  · unfold sysInv stopAlarm alarmInv
    simp
  · rcases s with ⟨a0, a1, trig, cs, idx, sel, mo, tz, bz⟩
    cases cs <;>
      simp_all [handleRightButton, sysInv, alarmInv, stopAlarm, SysState.alarmAt] <;>
      split_ifs <;> simp_all [alarmInv]
  · rcases s with ⟨a0, a1, trig, cs, idx, sel, mo, tz, bz⟩
    cases cs <;> simp_all [handleLeftButton, sysInv, alarmInv]
  · rcases s with ⟨a0, a1, trig, cs, idx, sel, mo, tz, bz⟩
    cases cs <;>
      simp_all [handleUpButton, sysInv, alarmInv] <;>
      split_ifs <;> simp_all [alarmInv]
  · rcases s with ⟨a0, a1, trig, cs, idx, sel, mo, tz, bz⟩
    cases cs <;>
      simp_all [handleDownButton, sysInv, alarmInv] <;>
      split_ifs <;> simp_all [alarmInv]

/-- Claim C7: for every combination of normalized light, temperature
and tunables with angleOffset at most 180 (and any value of the log
factor), the angle commanded by one control cycle lies within
[angleOffset, 180]; with normalizedLight = 0 or controlFactor = 0 it
equals angleOffset exactly. -/
theorem adjustServo_angle_bounds (off Tmed cf L T lg : ℚ) (hoff : off ≤ 180) :
    off ≤ adjustServoTheta off Tmed cf L T lg ∧
    adjustServoTheta off Tmed cf L T lg ≤ 180 ∧
    (L = 0 → adjustServoTheta off Tmed cf L T lg = off) ∧
    (cf = 0 → adjustServoTheta off Tmed cf L T lg = off) := by
  unfold adjustServoTheta constrain
  refine ⟨?_, ?_, ?_, ?_⟩
  · split_ifs with ht1 ht2
    · exact le_refl off
    · exact hoff
    · exact not_lt.mp ht1
  · split_ifs with ht1 ht2
    · exact hoff
    · exact le_refl 180
    · exact not_lt.mp ht2
  · rintro rfl
    have hz : off + (180 - off) * 0 * cf * lg * (T / Tmed) = off := by ring
    rw [hz, if_neg (lt_irrefl off), if_neg (not_lt.mpr hoff)]
  · rintro rfl
    have hz : off + (180 - off) * L * 0 * lg * (T / Tmed) = off := by ring
    rw [hz, if_neg (lt_irrefl off), if_neg (not_lt.mpr hoff)]

/-- Witness for C7 at the spec's scenario values (angleOffset 30, ideal
temperature 30, controlFactor 3/4, normalizedLight 0, temperature 25,
log factor -3). -/
theorem adjustServo_angle_bounds_witness :
    (30 : ℚ) ≤ adjustServoTheta 30 30 (3 / 4) 0 25 (-3) ∧
    adjustServoTheta 30 30 (3 / 4) 0 25 (-3) ≤ 180 ∧
    ((0 : ℚ) = 0 → adjustServoTheta 30 30 (3 / 4) 0 25 (-3) = 30) ∧
    ((3 / 4 : ℚ) = 0 → adjustServoTheta 30 30 (3 / 4) 0 25 (-3) = 30) :=
  adjustServo_angle_bounds 30 30 (3 / 4) 0 25 (-3) (by norm_num)

/-- Witness for C9 at a concrete state satisfying the invariant. -/
theorem ringing_snoozed_never_both_witness :
    sysInv (checkAlarms bothMatchState 7 30 1000) ∧
    sysInv (snoozeAlarm bothMatchState 1000) ∧
    sysInv (stopAlarm bothMatchState) ∧
    sysInv (handleRightButton bothMatchState) ∧
    sysInv (handleLeftButton bothMatchState) ∧
    sysInv (handleUpButton bothMatchState) ∧
    sysInv (handleDownButton bothMatchState) :=
  ringing_snoozed_never_both bothMatchState 7 30 1000 ⟨rfl, rfl⟩

end MediBox
